import Mathlib

/-!
Shallow embedding of `src/zipFile/zipfolder.js` (the `downloadZip` Express
handler) and of the archiver-library behavior it invokes.

The handler (transliterated from the source):

  exports.downloadZip = (request , respose) => {
      var archive = archiver('zip' , { zlib: { level: 9 } });
      archive.on('error', function(err) {
        respose.status(500).send({error: err.message});
      });
      archive.on('end', function() { console.log(...); });
      respose.attachment('folder.zip');
      archive.pipe(respose);
      archive.directory('Test/', false);
      archive.finalize();
      respose.on('close', function() {
        console.log(...);
        return res.status(200).send('OK').end();   -- `res` is unbound here
      });
  };

We model:
  * the Express response object (status code, headers-sent flag, the status
    actually committed to the wire, attachment header, body parts,
    finished/closed flags);
  * the archiver object (format, zlib level, abort flag, the directory call's
    queued source, files read so far, byte pointer);
  * JavaScript lexical scoping for the `close` callback (to settle the
    unbound-`res` defect);
  * the asynchronous phase as a list of events (a file read/compressed and its
    chunk piped to the response, an archiver `error` event, the archiver `end`
    event, the response `close` event), folded over the per-request state.

Uncaught exceptions thrown by event callbacks are recorded in an `uncaught`
list on the request state (in a live Node process they reach the process level
as `uncaughtException`); event processing for the request is kept total so that
the archiver's own progression remains observable.
-/

namespace DownloadZip

/-- A part of an HTTP response body: a piped binary chunk, the JSON error
payload `\x7b error: msg \x7d` sent by `respose.status(500).send(...)`, or a
plain text payload such as `'OK'`. -/
inductive BodyPart where
  | chunk (bytes : List Nat)
  | jsonError (msg : String)
  | text (s : String)
deriving Repr, DecidableEq

/-- The Express response object, as far as `downloadZip` touches it.
`statusCode` is the mutable `res.statusCode` property; `wireStatus` is the
status line actually committed to the client when headers were first flushed
(`none` until then); `attachment` is the Content-Disposition filename set by
`respose.attachment(...)`. -/
structure Response where
  statusCode : Nat := 200
  headersSent : Bool := false
  wireStatus : Option Nat := none
  attachment : Option String := none
  body : List BodyPart := []
  finished : Bool := false
  closed : Bool := false
deriving Repr, DecidableEq

/-- The archiver object created by `archiver('zip', { zlib: { level: 9 } })`.
`pendingSource` records the `archive.directory(source, destpath)` call
(`destpath = none` models the JavaScript `false` argument: no name prefix);
`entriesRead` lists the files the build has read so far; `pointer` models
`archive.pointer()` (bytes produced). -/
structure Archive where
  id : Nat := 0
  format : String := ""
  zlibLevel : Nat := 0
  aborted : Bool := false
  finalized : Bool := false
  pendingSource : Option (String × Option String) := none
  entriesRead : List String := []
  pointer : Nat := 0
deriving Repr, DecidableEq

/-- A JavaScript runtime error that escapes a callback. -/
inductive JsError where
  | referenceError (name : String)
  | headersAlreadySent
deriving Repr, DecidableEq

/-- Per-request state: the response, the archiver, and every exception that
escaped one of the handler's own event callbacks uncaught. -/
structure ReqState where
  resp : Response
  archive : Archive
  uncaught : List JsError := []
deriving Repr, DecidableEq

/-! ## JavaScript lexical scope of the close callback -/

/-- Names visible at module level in `zipfolder.js`. -/
def moduleScope : List String := ["archiver", "require", "exports", "module", "console"]

/-- Names visible inside the body of `downloadZip`: its two parameters
`request` and `respose`, its local `var archive`, and the module scope.
The `close` callback closes over exactly this environment. -/
def downloadZipScope : List String := "request" :: "respose" :: "archive" :: moduleScope

/-- JavaScript identifier resolution: a name not bound in any enclosing scope
raises a `ReferenceError`. -/
def jsLookup (scope : List String) (n : String) : Except JsError Unit :=
  if n ∈ scope then Except.ok () else Except.error (JsError.referenceError n)

/-! ## Express response primitives -/

/-- `r.status(code).send(b)`: `status` mutates `statusCode`; `send` throws if
headers were already flushed, otherwise commits `code` to the wire, appends the
payload and finishes the response. -/
def statusSend (r : Response) (code : Nat) (b : BodyPart) : Response × Option JsError :=
  let r1 := { r with statusCode := code }
  if r1.headersSent then
    (r1, some JsError.headersAlreadySent)
  else
    ({ r1 with headersSent := true, wireStatus := some code,
               body := r1.body ++ [b], finished := true }, none)

/-- A chunk arriving through `archive.pipe(respose)`: dropped if the response
is already finished or closed; otherwise it flushes headers (committing the
current status code, 200 by default) and appends the chunk. -/
def writeChunk (r : Response) (bytes : List Nat) : Response :=
  if r.finished || r.closed then r
  else
    { r with headersSent := true,
             wireStatus := some (r.wireStatus.getD r.statusCode),
             body := r.body ++ [BodyPart.chunk bytes] }

/-- End-of-stream reaching the response through the pipe: flushes headers if
needed and finishes the response (no-op when already finished). -/
def endResponse (r : Response) : Response :=
  if r.finished then r
  else
    { r with finished := true, headersSent := true,
             wireStatus := some (r.wireStatus.getD r.statusCode) }

/-! ## The handler's event callbacks -/

/-- The `archive.on('error', ...)` callback:
`respose.status(500).send({error: err.message})`. If the send throws (headers
already sent), the exception escapes the callback uncaught. -/
def errorHandler (s : ReqState) (msg : String) : ReqState :=
  { s with resp := (statusSend s.resp 500 (BodyPart.jsonError msg)).1,
           uncaught := s.uncaught ++ (statusSend s.resp 500 (BodyPart.jsonError msg)).2.toList }

/-- The `respose.on('close', ...)` callback:
`console.log(...); return res.status(200).send('OK').end();`.
The name `res` is resolved in the callback's lexical environment; if the
lookup fails the `ReferenceError` escapes uncaught and the send never runs. -/
def closeHandler (s : ReqState) : ReqState :=
  match jsLookup downloadZipScope "res" with
  | Except.ok _ =>
      { s with resp := (statusSend s.resp 200 (BodyPart.text "OK")).1,
               uncaught := s.uncaught ++ (statusSend s.resp 200 (BodyPart.text "OK")).2.toList }
  | Except.error e => { s with uncaught := s.uncaught ++ [e] }

/-! ## The synchronous body of `downloadZip` -/

/-- Source-order trace of the statements executed synchronously by one call of
`downloadZip`, used to state ordering properties. -/
inductive Action where
  | createArchive
  | registerOnError
  | registerOnEnd
  | setAttachment
  | pipeToResponse
  | addDirectory
  | finalizeArchive
  | registerOnClose
deriving Repr, BEq, DecidableEq

/-- The statements of `downloadZip` in source order. -/
def downloadZipTrace : List Action :=
  [Action.createArchive, Action.registerOnError, Action.registerOnEnd,
   Action.setAttachment, Action.pipeToResponse, Action.addDirectory,
   Action.finalizeArchive, Action.registerOnClose]

/-- The synchronous part of `exports.downloadZip = (request, respose) => ...`:
creates a fresh archiver (`'zip'`, zlib level 9), sets the attachment name to
`'folder.zip'`, queues `archive.directory('Test/', false)` and calls
`archive.finalize()`. `freshId` identifies the object allocated by this call.
The event callbacks it registers are `errorHandler`, the logging-only `end`
handler, and `closeHandler`; they run during event processing below. -/
def downloadZip (freshId : Nat) (request : Unit) (respose : Response) : ReqState :=
  let archive : Archive := { id := freshId, format := "zip", zlibLevel := 9 }
  let respose := { respose with attachment := some "folder.zip" }
  let archive := { archive with pendingSource := some ("Test/", none) }
  let archive := { archive with finalized := true }
  { resp := respose, archive := archive }

/-- A fresh Express response object. -/
def initResp : Response := {}

/-- The request state right after the synchronous part of the handler ran. -/
def initReq (freshId : Nat) : ReqState := downloadZip freshId () initResp

/-! ## Asynchronous events -/

/-- Asynchronous events delivered to one request after the handler returned:
the archiver reads and compresses a file and pipes the resulting `bytes` to
the response; the archiver emits `'error'`; the archiver stream ends; the
response emits `'close'`. -/
inductive Ev where
  | readFile (name : String) (bytes : List Nat)
  | archError (msg : String)
  | archEnd
  | respClose
deriving Repr, DecidableEq

/-- One event step. `readFile` performs build work unless the archiver was
aborted (no statement of `downloadZip` ever aborts it); `archError` runs the
registered error callback; `archEnd` runs the logging-only `end` callback and
ends the piped response; `respClose` marks the response closed and runs the
registered close callback. -/
def procEv (s : ReqState) : Ev → ReqState
  | Ev.readFile name bytes =>
      if s.archive.aborted then s
      else
        { s with
          archive := { s.archive with
                       entriesRead := s.archive.entriesRead ++ [name],
                       pointer := s.archive.pointer + bytes.length },
          resp := writeChunk s.resp bytes }
  | Ev.archError msg => errorHandler s msg
  | Ev.archEnd => { s with resp := endResponse s.resp }
  | Ev.respClose =>
      closeHandler { s with resp := { s.resp with closed := true } }

/-- Deliver a list of events to a request. -/
def runEvents (s : ReqState) (evs : List Ev) : ReqState := evs.foldl procEv s

/-! ## Server-level view for per-request freshness -/

/-- Server state: a supply of object identities for `var archive = archiver(...)`
allocations. -/
structure ServerState where
  nextArchiveId : Nat := 0
deriving Repr, DecidableEq

/-- Dispatch of one `GET /downloadzip` request: `index.js` routes it to
`zipFile.downloadZip`, which allocates a fresh archiver. -/
def handleDownloadZip (st : ServerState) : ServerState × ReqState :=
  ({ nextArchiveId := st.nextArchiveId + 1 }, downloadZip st.nextArchiveId () initResp)

/-! ## Archive content (archiver library, modelled from the spec) -/

/-- An entry of the produced ZIP archive: its name and its stored content. -/
structure ZipEntry where
  name : String
  content : List Nat
deriving Repr, DecidableEq

/-- Modelled from the spec: the archiver library's
`archive.directory(source, destpath)`. Missing from `src/` (third-party
library). Per the spec, it recursively includes every file under `source`
with its stable relative path from the directory root; with `destpath`
absent (the JavaScript `false`), entry names are exactly those relative
paths — the root directory itself contributes no entry and no name prefix;
with `destpath = some d`, names are prefixed by `d ++ "/"`. `files` is the
recursive file listing of `source` as (relative path, content) pairs, and
compression is lossless, so stored content equals file content. -/
def archiveDirectory (destpath : Option String) (files : List (String × List Nat)) :
    List ZipEntry :=
  files.map fun f =>
    { name := match destpath with
              | none => f.1
              | some d => d ++ "/" ++ f.1,
      content := f.2 }

/-- The archive a request's archiver builds, determined by its queued
`directory` call and the current file listing of the source directory. -/
def builtArchive (arch : Archive) (files : List (String × List Nat)) : List ZipEntry :=
  match arch.pendingSource with
  | some (_, dest) => archiveDirectory dest files
  | none => []

/-- Extracting an archive yields its (name, content) pairs. -/
def extracted (a : List ZipEntry) : List (String × List Nat) :=
  a.map fun e => (e.name, e.content)

end DownloadZip

namespace DownloadZip

/-! ## Helper lemmas -/

/-- `statusSend` never changes the attachment header. -/
theorem statusSend_attachment (r : Response) (code : Nat) (b : BodyPart) :
    ((statusSend r code b).1).attachment = r.attachment := by
  simp only [statusSend]
  split <;> rfl

/-- No event changes the attachment header. -/
theorem procEv_attachment (s : ReqState) (e : Ev) :
    (procEv s e).resp.attachment = s.resp.attachment := by
  cases e with
  | readFile name bytes =>
      simp only [procEv, writeChunk]
      split
      · rfl
      · split <;> rfl
  | archError msg =>
      simp only [procEv, errorHandler]
      exact statusSend_attachment s.resp 500 (BodyPart.jsonError msg)
  | archEnd =>
      simp only [procEv, endResponse]
      split <;> rfl
  | respClose => rfl

/-- No event sequence changes the attachment header. -/
theorem runEvents_attachment (evs : List Ev) (s : ReqState) :
    (runEvents s evs).resp.attachment = s.resp.attachment := by
  induction evs generalizing s with
  | nil => rfl
  | cons e l ih =>
      have h : runEvents s (e :: l) = runEvents (procEv s e) l := rfl
      rw [h, ih (procEv s e), procEv_attachment]

/-- Delivering one more trailing event is one more step. -/
theorem runEvents_concat (s : ReqState) (l : List Ev) (e : Ev) :
    runEvents s (l ++ [e]) = procEv (runEvents s l) e := by
  simp [runEvents, List.foldl_append]

/-- After end-of-stream reaches the response, it is finished. -/
theorem endResponse_finished (r : Response) : (endResponse r).finished = true := by
  unfold endResponse
  split
  · assumption
  · rfl

/-- After the archiver `end` event, the response is finished, and the
subsequent `close` event leaves the response's body, committed status and
finished flag unchanged (the close callback's send never executes). -/
theorem archEnd_close_helper (s : ReqState) :
    (procEv s Ev.archEnd).resp.finished = true ∧
    (procEv (procEv s Ev.archEnd) Ev.respClose).resp.body
      = (procEv s Ev.archEnd).resp.body ∧
    (procEv (procEv s Ev.archEnd) Ev.respClose).resp.wireStatus
      = (procEv s Ev.archEnd).resp.wireStatus ∧
    (procEv (procEv s Ev.archEnd) Ev.respClose).resp.finished = true :=
  ⟨endResponse_finished s.resp, rfl, rfl, endResponse_finished s.resp⟩

end DownloadZip

namespace DownloadZip

/-! ## Claim theorems -/

/-- Claim C1, counterexample. The claim states that for every request in which
archive construction fails, the handler responds with status 500 and the JSON
error body, and no partial archive body was already committed with status 200.
Refuted at a concrete run: one file is read and piped (committing status 200
and a partial archive chunk) before a later file turns out unreadable and the
archiver emits `'error'`; the error callback's `status(500).send` then throws
(headers already sent), so the committed status stays 200 with a partial
archive body and the JSON error body is never delivered. -/
theorem C1_counterexample :
    (runEvents (initReq 0)
        [Ev.readFile "a.txt" [7, 7],
         Ev.archError "EACCES: permission denied"]).resp.wireStatus = some 200 ∧
    BodyPart.chunk [7, 7] ∈
      (runEvents (initReq 0)
        [Ev.readFile "a.txt" [7, 7],
         Ev.archError "EACCES: permission denied"]).resp.body ∧
    (runEvents (initReq 0)
        [Ev.readFile "a.txt" [7, 7],
         Ev.archError "EACCES: permission denied"]).resp.wireStatus ≠ some 500 ∧
    (runEvents (initReq 0)
        [Ev.readFile "a.txt" [7, 7],
         Ev.archError "EACCES: permission denied"]).resp.body ≠
      [BodyPart.jsonError "EACCES: permission denied"] := by
  refine ⟨rfl, ?_, ?_, ?_⟩ <;> decide

/-- Claim C1, amended: for every request in which archive construction fails
before any archive byte was written to the response, the handler responds with
status 500 and the JSON body `\x7b error: msg \x7d`, finishing the response;
no partial archive body was committed with a 200 status. -/
theorem C1_error_before_streaming (freshId : Nat) (msg : String) :
    (runEvents (initReq freshId) [Ev.archError msg]).resp.wireStatus = some 500 ∧
    (runEvents (initReq freshId) [Ev.archError msg]).resp.body
      = [BodyPart.jsonError msg] ∧
    (runEvents (initReq freshId) [Ev.archError msg]).resp.finished = true :=
  ⟨rfl, rfl, rfl⟩

/-- Claim C2: the `close` callback registered on the response dereferences the
name `res`, which is bound in no enclosing scope of `downloadZip` (the
parameters are `request` and `respose`, the local is `archive`), so resolving
it raises a `ReferenceError`, and processing the response's `close` event adds
exactly that uncaught `ReferenceError` to the request's escaped-error list. -/
theorem C2_close_callback_unbound_res (s : ReqState) :
    "res" ∉ downloadZipScope ∧
    jsLookup downloadZipScope "res" = Except.error (JsError.referenceError "res") ∧
    (procEv s Ev.respClose).uncaught = s.uncaught ++ [JsError.referenceError "res"] := by
  refine ⟨by decide, rfl, rfl⟩

/-- Claim C3: for every request that completes successfully (any sequence of
piped file chunks followed by the archiver's `end` event), the response is
already finished at the moment the archive signals completion, and the
`close`-time status-200 send never executes as a second finalize: the later
`close` event changes neither the body nor the committed status, and the
response stays finished. -/
theorem C3_single_completion_path (freshId : Nat) (files : List (String × List Nat)) :
    (runEvents (initReq freshId)
        ((files.map fun f => Ev.readFile f.1 f.2) ++ [Ev.archEnd])).resp.finished = true ∧
    (runEvents (initReq freshId)
        (((files.map fun f => Ev.readFile f.1 f.2) ++ [Ev.archEnd]) ++ [Ev.respClose])).resp.body
      = (runEvents (initReq freshId)
          ((files.map fun f => Ev.readFile f.1 f.2) ++ [Ev.archEnd])).resp.body ∧
    (runEvents (initReq freshId)
        (((files.map fun f => Ev.readFile f.1 f.2) ++ [Ev.archEnd]) ++ [Ev.respClose])).resp.wireStatus
      = (runEvents (initReq freshId)
          ((files.map fun f => Ev.readFile f.1 f.2) ++ [Ev.archEnd])).resp.wireStatus ∧
    (runEvents (initReq freshId)
        (((files.map fun f => Ev.readFile f.1 f.2) ++ [Ev.archEnd]) ++ [Ev.respClose])).resp.finished
      = true := by
  have e1 := runEvents_concat (initReq freshId)
    (files.map fun f => Ev.readFile f.1 f.2) Ev.archEnd
  have e2 := runEvents_concat (initReq freshId)
    ((files.map fun f => Ev.readFile f.1 f.2) ++ [Ev.archEnd]) Ev.respClose
  rw [e2, e1]
  exact archEnd_close_helper (runEvents (initReq freshId)
    (files.map fun f => Ev.readFile f.1 f.2))

/-- Claim C4: a run in which a request completes (archiver `end`, then the
response's `close` event) leaves an uncaught `ReferenceError` escaped from the
handler's own `close` callback — the error is not caught at the component
boundary and not converted to the 500 JSON error shape, contradicting the
claim that no internal error propagates uncaught to the process level. -/
theorem C4_close_callback_error_escapes_uncaught :
    (runEvents (initReq 0) [Ev.archEnd, Ev.respClose]).uncaught
      = [JsError.referenceError "res"] ∧
    (runEvents (initReq 0) [Ev.archEnd, Ev.respClose]).resp.wireStatus = some 200 := by
  exact ⟨rfl, rfl⟩

/-- Claim C5: a run in which the client disconnects mid-stream (the response's
`close` event fires after one file, while another file is still pending) shows
the build going on: the close callback never aborts the archiver, so after the
close the archiver still reads and compresses the next file (`entriesRead`
grows, `pointer` advances), contradicting the claim that the closure signal
stops all further file reads and compression work. -/
theorem C5_build_continues_after_close :
    (runEvents (initReq 0)
        [Ev.readFile "a.txt" [1], Ev.respClose, Ev.readFile "sub/b.txt" [2]]).resp.closed
      = true ∧
    (runEvents (initReq 0)
        [Ev.readFile "a.txt" [1], Ev.respClose, Ev.readFile "sub/b.txt" [2]]).archive.aborted
      = false ∧
    (runEvents (initReq 0)
        [Ev.readFile "a.txt" [1], Ev.respClose, Ev.readFile "sub/b.txt" [2]]).archive.entriesRead
      = ["a.txt", "sub/b.txt"] ∧
    (runEvents (initReq 0)
        [Ev.readFile "a.txt" [1], Ev.respClose, Ev.readFile "sub/b.txt" [2]]).archive.pointer
      = 2 := by
  refine ⟨rfl, rfl, ?_, rfl⟩
  decide

end DownloadZip

namespace DownloadZip

/-- With no destination prefix, building and extracting is the identity on the
file listing. -/
theorem extracted_archiveDirectory_none (files : List (String × List Nat)) :
    extracted (archiveDirectory none files) = files := by
  induction files with
  | nil => rfl
  | cons a t ih => exact congrArg (List.cons a) ih

/-- Claim C6: for every (recursive) file listing of the source directory whose
relative paths are non-empty, the archive built by a request's archiver — via
its queued `archive.directory('Test/', false)` call — extracts back to exactly
those files: entry names are the stable relative paths from the directory root
with no prefix added for the root directory, contents are preserved, and no
entry stands for the root directory itself. -/
theorem C6_archive_contents (freshId : Nat) (files : List (String × List Nat))
    (h : ∀ p ∈ files, p.1 ≠ "") :
    extracted (builtArchive (initReq freshId).archive files) = files ∧
    (∀ e ∈ builtArchive (initReq freshId).archive files, e.name ≠ "") ∧
    (builtArchive (initReq freshId).archive files).map ZipEntry.name
      = files.map Prod.fst := by
  refine ⟨?_, ?_, ?_⟩
  · exact extracted_archiveDirectory_none files
  · intro e he
    simp only [builtArchive, initReq, downloadZip, archiveDirectory,
      List.mem_map] at he
    obtain ⟨p, hp, rfl⟩ := he
    exact h p hp
  · simp [builtArchive, initReq, downloadZip, archiveDirectory]

/-- Witness for C6 at the spec's own example directory: files `a.txt` and
`sub/b.txt`. -/
theorem C6_archive_contents_witness :
    (∀ p ∈ ([("a.txt", [1]), ("sub/b.txt", [2, 3])] : List (String × List Nat)),
        p.1 ≠ "") ∧
    (extracted (builtArchive (initReq 0).archive [("a.txt", [1]), ("sub/b.txt", [2, 3])])
        = [("a.txt", [1]), ("sub/b.txt", [2, 3])] ∧
      (∀ e ∈ builtArchive (initReq 0).archive [("a.txt", [1]), ("sub/b.txt", [2, 3])],
          e.name ≠ "") ∧
      (builtArchive (initReq 0).archive [("a.txt", [1]), ("sub/b.txt", [2, 3])]).map
          ZipEntry.name = [("a.txt", [1]), ("sub/b.txt", [2, 3])].map Prod.fst) :=
  ⟨by decide, C6_archive_contents 0 [("a.txt", [1]), ("sub/b.txt", [2, 3])] (by decide)⟩

/-- Claim C7: `respose.attachment('folder.zip')` runs in the synchronous body
of the handler, before the pipe is set up (source order: `setAttachment`
precedes `pipeToResponse`); right after the synchronous body the attachment
metadata is set while the body is still empty and no header was flushed, and
no later event ever changes the attachment — so every body byte is emitted
with the metadata already set. -/
theorem C7_attachment_before_first_body_byte (freshId : Nat) (evs : List Ev) :
    downloadZipTrace.indexOf Action.setAttachment
      < downloadZipTrace.indexOf Action.pipeToResponse ∧
    (initReq freshId).resp.attachment = some "folder.zip" ∧
    (initReq freshId).resp.body = [] ∧
    (initReq freshId).resp.headersSent = false ∧
    (runEvents (initReq freshId) evs).resp.attachment = some "folder.zip" := by
  refine ⟨by decide, rfl, rfl, rfl, ?_⟩
  rw [runEvents_attachment]
  rfl

/-- Claim C8: each call of `downloadZip` constructs a fresh archiver object
(`archiver('zip', { zlib: { level: 9 } })` is evaluated per call): two
sequential requests dispatched by the server yield archivers with distinct
identities, each a zip archiver at the fixed maximum compression level 9. -/
theorem C8_fresh_archiver_per_request (st : ServerState) :
    (handleDownloadZip st).2.archive.id
      ≠ (handleDownloadZip (handleDownloadZip st).1).2.archive.id ∧
    (handleDownloadZip st).2.archive.format = "zip" ∧
    (handleDownloadZip st).2.archive.zlibLevel = 9 ∧
    (handleDownloadZip (handleDownloadZip st).1).2.archive.format = "zip" ∧
    (handleDownloadZip (handleDownloadZip st).1).2.archive.zlibLevel = 9 := by
  refine ⟨?_, rfl, rfl, rfl, rfl⟩
  show st.nextArchiveId ≠ st.nextArchiveId + 1
  omega

/-- Claim C9: idempotence — two sequential requests dispatched with the
directory contents unchanged between them build archives whose extracted file
sets and contents are identical (the archives differ only in per-request
object identity, not in entries). -/
theorem C9_idempotent_archive_content (st : ServerState)
    (files : List (String × List Nat)) :
    extracted (builtArchive (handleDownloadZip st).2.archive files)
      = extracted (builtArchive (handleDownloadZip (handleDownloadZip st).1).2.archive files) :=
  rfl

/-- Claim C10: the attachment metadata (`folder.zip`) is set unconditionally
in the synchronous body, before the pipe and before `finalize` (source order),
and no event removes it; in particular, when an archive-construction error
triggers the 500 JSON response, the response still carries the attachment
metadata. -/
theorem C10_attachment_set_before_error_response (freshId : Nat) (msg : String)
    (evs : List Ev) :
    downloadZipTrace.indexOf Action.setAttachment
      < downloadZipTrace.indexOf Action.pipeToResponse ∧
    downloadZipTrace.indexOf Action.setAttachment
      < downloadZipTrace.indexOf Action.finalizeArchive ∧
    (runEvents (initReq freshId) (evs ++ [Ev.archError msg])).resp.attachment
      = some "folder.zip" ∧
    (runEvents (initReq freshId) [Ev.archError msg]).resp.wireStatus = some 500 ∧
    (runEvents (initReq freshId) [Ev.archError msg]).resp.attachment
      = some "folder.zip" := by
  refine ⟨by decide, by decide, ?_, rfl, rfl⟩
  rw [runEvents_attachment]
  rfl

end DownloadZip
